import Mathlib

/-!
Shallow embedding of `shopsurfer_agent_ui.py` (ShopSurfer): a four-stage
shopping-assistant pipeline built on an external agent-orchestration
framework, exposed through a small form handler.

Conventions of the embedding:
* Tools, agents and tasks are pure data records mirroring the keyword
  arguments of the Python constructors.
* A `Task.context` in the Python source is a list of references to
  previously constructed task objects; since the four tasks are stored in
  one list, the embedding represents a context as the list of 0-based
  positions of those tasks in the crew's task list.
* The external sequential executor (`Crew.kickoff` with
  `Process.sequential`) is not part of the repository; `seqExec` is
  modelled from the spec: each stage's effective prompt is its description
  followed by the textual outputs of the tasks in its context, the stage
  calls the LLM once, any exception aborts the whole run, and the final
  result is the last task's output.  The LLM (plus the tool calls it makes)
  is an oracle parameter `Oracle`; an `Except.error` models a Python
  exception carrying `str(e)`.  `seqExec` also records, as a ghost trace,
  the 0-based index of each stage it actually runs together with the
  effective prompt passed to that stage.
* `os.environ` is modelled as a total map `String → Option String`;
  Python's `str.strip` is modelled by `strip` (whitespace = space, tab,
  CR, LF).
-/

namespace ShopSurfer

/-- A tool adapter (`SerperDevTool`, `WebsiteSearchTool`,
`ScrapeWebsiteTool`): an opaque stateless wrapper identified by name. -/
structure Tool where
  name : String
  deriving DecidableEq, Inhabited

/-- The three tool adapters created in `ShoppingCrew.__init__`. -/
def search_tool : Tool := ⟨"SerperDevTool"⟩

def website_search_tool : Tool := ⟨"WebsiteSearchTool"⟩

def scrape_tool : Tool := ⟨"ScrapeWebsiteTool"⟩

/-- An agent record, mirroring the keyword arguments of the Python
`Agent(...)` constructor.  An agent constructed without a `tools` argument
(the report agent) has the empty tool list. -/
structure Agent where
  role : String
  goal : String
  backstory : String
  tools : List Tool
  verbose : Bool
  deriving DecidableEq, Inhabited

/-- A task record, mirroring the Python `Task(...)` constructor.
`context` holds the 0-based positions, in the crew's task list, of the
tasks whose outputs feed this task (the Python source passes the task
objects themselves). -/
structure Task where
  description : String
  agent : Agent
  context : List Nat
  expected_output : String
  deriving DecidableEq, Inhabited

/-- `ShoppingCrew.create_agents`: builds the four agents and returns them
as a tuple (verification, research, deal finder, report). -/
def ShoppingCrew.create_agents : Agent × Agent × Agent × Agent :=
  let verification_agent : Agent := {
    role := "Product Specification Verifier",
    goal := "Verify exact product details and model information",
    backstory := "You are a technical specialist who verifies product specifications,
            model numbers, and ensures accuracy of product information. You have extensive
            experience in consumer electronics and can spot incorrect or outdated information.",
    tools := [search_tool, website_search_tool],
    verbose := true }
  let research_agent : Agent := {
    role := "Product Research Specialist",
    goal := "Conduct comprehensive product research including customer reviews and availability",
    backstory := "You are an expert product researcher who specializes in
            detailed product analysis. You focus on gathering authentic customer reviews,
            checking real-time stock availability, and verifying warranty information.
            You know how to distinguish genuine reviews from fake ones and can provide
            balanced perspectives from actual users.",
    tools := [search_tool, website_search_tool, scrape_tool],
    verbose := true }
  let deal_finder_agent : Agent := {
    role := "Deals Analysis Expert",
    goal := "Find and verify current deals with specific dates and conditions",
    backstory := "You are a professional deal finder who specializes in
            tracking promotion dates and conditions. You verify the legitimacy of deals,
            understand complex terms and conditions, and can find hidden savings
            opportunities. You\x27re expert at comparing warranty options and total ownership costs.",
    tools := [search_tool, website_search_tool, scrape_tool],
    verbose := true }
  let report_agent : Agent := {
    role := "Shopping Report Specialist",
    goal := "Create detailed, accurate shopping reports with specific links and availability info",
    backstory := "You are an experienced shopping analyst who creates
            comprehensive reports. You ensure all information is current and accurate,
            include specific product links, and provide detailed availability information.
            You excel at presenting complex information in an easy-to-understand format
            while maintaining technical accuracy.",
    tools := [],
    verbose := true }
  (verification_agent, research_agent, deal_finder_agent, report_agent)

/-- Tail of the verification task's description: the f-string
`f"""Verify exact product specifications for: {query} ..."""` is the
literal prefix, then the query, then this constant tail. -/
def verificationTail : String := "

            Required Steps:
            1. Confirm exact model number and name
            2. Verify all technical specifications
            3. Check for any recent product updates or revisions
            4. Confirm product variants and options
            5. Validate compatibility information

            Return:
            - Exact model numbers and names
            - Confirmed specifications
            - Any discrepancies found
            - Latest product updates"

/-- Tail of the research task's description (after the interpolated
query). -/
def researchTail : String := "

            Required Steps:
            1. Search for the product across major retailers
            2. Collect and analyze customer reviews (minimum 10)
            3. Check current stock availability
            4. Verify warranty options and terms
            5. Analyze return policies
            6. Compare technical specifications

            Return findings including:
            - Verified retailer list with exact product page URLs
            - Detailed warranty information
            - Stock availability status
            - Curated customer reviews (positive and negative)
            - Technical specifications comparison
            - Return policy details"

/-- Expected output of the research task. -/
def researchExpected : String := "Detailed product research findings which should
             Verified retailer list with exact product page URLs
             Detailed warranty information
             Stock availability status
             Curated customer reviews (positive and negative)
             Technical specifications comparison
             Return policy details
            "

/-- Description of the deal-finding task (no query interpolation). -/
def dealFindingDescription : String := "Using the research findings, analyze current deals:

            Required Steps:
            1. Verify current prices and promotions
            2. Document specific promotion dates
            3. Detail all terms and conditions
            4. Compare warranty options
            5. Check stock availability for deals
            6. Verify shipping timeframes

            Provide for each retailer:
            - Current price with promotion dates
            - Detailed terms and conditions
            - Warranty options and costs
            - Stock availability status
            - Shipping/pickup options and timeframes
            - Total cost breakdown including all fees"

/-- Expected output of the deal-finding task. -/
def dealExpected : String := "Detailed deals analysis which should include:
            Current price with promotion dates
            Detailed terms and conditions
            Warranty options and costs
            Stock availability status
            Shipping/pickup options and timeframes
            Total cost breakdown including all fees
            "

/-- Description of the report task (no query interpolation). -/
def reportDescription : String := "Create a comprehensive shopping report including:

            1. Executive Summary
               - Top recommendation with reasoning
               - Price range overview with specific dates
               - Best current deal with terms

            2. Product Details
               - Verified model numbers and specifications
               - Detailed pros and cons
               - Curated customer reviews (minimum 5 positive and 5 negative)
               - Warranty options comparison

            3. Price and Availability Comparison
               - Retailer comparison table with exact URLs
               - Current stock availability
               - Promotion dates and terms
               - Complete cost breakdown

            4. Buying Guide
               - Best retailer choice with reasoning
               - Stock availability alerts
               - Direct product page links
               - Warranty recommendations

            Format the report clearly with sections and bullet points.
            Include specific dates, model numbers, and direct links."

/-- Expected output of the report task. -/
def reportExpected : String := "Final shopping report which includes clearly with sections and bullet points.
            Include specific dates, model numbers, and direct links"

/-- `ShoppingCrew.create_tasks`: builds the four tasks for a query.  The
verification task has no context; the research task's context is the
verification task (position 0); the deal-finding task's context is
positions 0 and 1; the report task's context is positions 0, 1 and 2. -/
def ShoppingCrew.create_tasks (query : String)
    (verification_agent research_agent deal_finder_agent report_agent : Agent) :
    List Task :=
  let verification_task : Task := {
    description := "Verify exact product specifications for: " ++ query ++ verificationTail,
    agent := verification_agent,
    context := [],
    expected_output := "Detailed product verification findings" }
  let research_task : Task := {
    description := "Research this product in detail: " ++ query ++ researchTail,
    agent := research_agent,
    context := [0],
    expected_output := researchExpected }
  let deal_finding_task : Task := {
    description := dealFindingDescription,
    agent := deal_finder_agent,
    context := [0, 1],
    expected_output := dealExpected }
  let report_task : Task := {
    description := reportDescription,
    agent := report_agent,
    context := [0, 1, 2],
    expected_output := reportExpected }
  [verification_task, research_task, deal_finding_task, report_task]

/-- The LLM (together with the tool calls it makes while answering): given
the stage's agent and its effective prompt, it either returns the stage's
textual output or raises an exception whose message is the `String`. -/
abbrev Oracle : Type := Agent → String → Except String String

/-- Modelled from the spec: a stage's effective prompt is the
concatenation of its description and the textual outputs of all tasks
listed in its context, in order (`outs` is the list of outputs of the
already-completed stages, indexed by stage position). -/
def effectivePrompt (outs : List String) (t : Task) : String :=
  t.description ++ String.join (t.context.map (fun j => outs.getD j ""))

/-- Modelled from the spec: the external sequential executor
(`Crew.kickoff` with `Process.sequential`, which the repository only
configures).  Stages run strictly in list order; each stage makes one
oracle call on its effective prompt; an exception aborts the run.  The
first component is the ghost trace: the (position, effective prompt) of
each stage that actually ran, in execution order; the second is the list
of all stage outputs accumulated so far, or the uncaught exception. -/
def seqExec (llm : Oracle) : List Task → Nat → List String →
    List (Nat × String) × Except String (List String)
  | [], _, outs => ([], Except.ok outs)
  | t :: ts, i, outs =>
    let p := effectivePrompt outs t
    match llm t.agent p with
    | Except.error e => ([(i, p)], Except.error e)
    | Except.ok o =>
      let r := seqExec llm ts (i + 1) (outs ++ [o])
      ((i, p) :: r.1, r.2)

/-- The crew's task list for a query: `create_tasks` applied to the four
agents returned by `create_agents`, exactly as `ShoppingCrew.run` wires
them. -/
def crewTasks (query : String) : List Task :=
  ShoppingCrew.create_agents.1 |> fun verification_agent =>
  ShoppingCrew.create_agents.2.1 |> fun research_agent =>
  ShoppingCrew.create_agents.2.2.1 |> fun deal_finder_agent =>
  ShoppingCrew.create_agents.2.2.2 |> fun report_agent =>
  ShoppingCrew.create_tasks query verification_agent research_agent
    deal_finder_agent report_agent

/-- `ShoppingCrew.run` up to the final projection: create the agents,
create the tasks, hand them to the sequential executor.  Returns the ghost
trace and the executor's outcome (all stage outputs, or the exception). -/
def ShoppingCrew.runFull (llm : Oracle) (query : String) :
    List (Nat × String) × Except String (List String) :=
  seqExec llm (crewTasks query) 0 []

/-- `ShoppingCrew.run`: the result of `crew.kickoff()` is the last task's
output (kept paired with the ghost trace). -/
def ShoppingCrew.run (llm : Oracle) (query : String) :
    List (Nat × String) × Except String String :=
  let r := ShoppingCrew.runFull llm query
  (r.1,
    match r.2 with
    | Except.ok outs => Except.ok (outs.getLastD "")
    | Except.error e => Except.error e)

/-- Python's `str.strip()`: drop leading and trailing whitespace (space,
tab, CR, LF). -/
def strip (s : String) : String :=
  String.mk (((s.data.dropWhile Char.isWhitespace).reverse.dropWhile
    Char.isWhitespace).reverse)

/-- `validate_api_keys`: returns the user-facing message when either key
is empty after stripping (Python's `not key.strip()`), else `None`. -/
def validate_api_keys (openai_key serper_key : String) : Option String :=
  if strip openai_key = "" ∨ strip serper_key = "" then
    some "Please enter both API keys"
  else
    none

/-- Point update of the modelled process environment (`os.environ[k] = v`). -/
def setEnv (env : String → Option String) (k v : String) :
    String → Option String :=
  fun x => if x = k then some v else env x

/-- Observable outcome of one `search_products` call: the returned string,
the process environment after the call, the ghost trace of pipeline stages
that ran, and whether the `ShoppingCrew` pipeline was constructed at all. -/
structure SearchResult where
  output : String
  env : String → Option String
  executed : List (Nat × String)
  crewConstructed : Bool

/-- `search_products`: validate the two keys; on failure return the
validation message untouched-environment; on success write both keys into
the process environment, construct a fresh `ShoppingCrew`, run it, and
return its result, converting any exception `e` into
`"An error occurred: " ++ str(e)`. -/
def search_products (llm : Oracle) (env : String → Option String)
    (openai_key serper_key query : String) : SearchResult :=
  match validate_api_keys openai_key serper_key with
  | some validation_error =>
    { output := validation_error, env := env, executed := [],
      crewConstructed := false }
  | none =>
    let env1 := setEnv env "OPENAI_API_KEY" openai_key
    let env2 := setEnv env1 "SERPER_API_KEY" serper_key
    let r := ShoppingCrew.run llm query
    match r.2 with
    | Except.ok result =>
      { output := result, env := env2, executed := r.1,
        crewConstructed := true }
    | Except.error e =>
      { output := "An error occurred: " ++ e, env := env2, executed := r.1,
        crewConstructed := true }

/-- Does `pat` occur as a contiguous segment of `l`? -/
def containsSeg (pat : List Char) : List Char → Bool
  | [] => pat.isEmpty
  | c :: rest => pat.isPrefixOf (c :: rest) || containsSeg pat rest

/-- An oracle whose every stage succeeds with the empty output. -/
def llmOk : Oracle := fun _ _ => Except.ok ""

/-- An oracle whose every stage raises an exception with message "boom". -/
def llmBoom : Oracle := fun _ _ => Except.error "boom"

/-- An empty modelled process environment. -/
def envEmpty : String → Option String := fun _ => none

end ShopSurfer

namespace ShopSurfer

/-- The ghost trace records stage positions consecutively from the start
position, and never more stages than there are tasks. -/
theorem seqExec_indices (llm : Oracle) : ∀ (ts : List Task) (i : Nat) (outs : List String),
    ((seqExec llm ts i outs).1).map Prod.fst =
      List.range' i ((seqExec llm ts i outs).1.length) ∧
    (seqExec llm ts i outs).1.length ≤ ts.length := by
  intro ts
  induction ts with
  | nil => intro i outs; simp [seqExec]
  | cons t ts ih =>
    intro i outs
    rcases hc : llm t.agent (effectivePrompt outs t) with e | o
    · simp [seqExec, hc, List.range']
    · obtain ⟨h1, h2⟩ := ih (i + 1) (outs ++ [o])
      refine ⟨?_, ?_⟩
      · simp [seqExec, hc, List.range', h1]
      · simp only [seqExec, hc]
        simpa using Nat.succ_le_succ h2

/-- A successful executor run appends one output per task. -/
theorem seqExec_ok (llm : Oracle) : ∀ (ts : List Task) (i : Nat) (outs outs' : List String),
    (seqExec llm ts i outs).2 = Except.ok outs' →
    ∃ news, outs' = outs ++ news ∧ news.length = ts.length ∧
      (seqExec llm ts i outs).1.length = ts.length := by
  intro ts
  induction ts with
  | nil =>
    intro i outs outs' h
    simp only [seqExec, Except.ok.injEq] at h
    exact ⟨[], by simp [h], rfl, rfl⟩
  | cons t ts ih =>
    intro i outs outs' h
    rcases hc : llm t.agent (effectivePrompt outs t) with e | o
    · simp only [seqExec, hc] at h
      exact absurd h (by simp)
    · simp only [seqExec, hc] at h ⊢
      obtain ⟨news, hn1, hn2, hn3⟩ := ih (i + 1) (outs ++ [o]) outs' h
      refine ⟨o :: news, ?_, ?_, ?_⟩
      · simp [hn1]
      · simp [hn2]
      · simp [hn3]

/-- A failing executor run stops at the failing stage: the trace length is
`j + 1` for some stage index `j` within the task list. -/
theorem seqExec_error (llm : Oracle) : ∀ (ts : List Task) (i : Nat) (outs : List String) (e : String),
    (seqExec llm ts i outs).2 = Except.error e →
    ∃ j, j < ts.length ∧ (seqExec llm ts i outs).1.length = j + 1 := by
  intro ts
  induction ts with
  | nil =>
    intro i outs e h
    exact absurd h (by simp [seqExec])
  | cons t ts ih =>
    intro i outs e h
    rcases hc : llm t.agent (effectivePrompt outs t) with e' | o
    · exact ⟨0, by simp, by simp [seqExec, hc]⟩
    · simp only [seqExec, hc] at h ⊢
      obtain ⟨j, hj, hl⟩ := ih (i + 1) (outs ++ [o]) e h
      exact ⟨j + 1, by simpa using Nat.succ_lt_succ hj, by simp [hl]⟩

/-- On a successful run, the stage at position `j` was called with the
effective prompt built from its description and the outputs of the stages
before it. -/
theorem seqExec_prompt (llm : Oracle) : ∀ (ts : List Task) (i : Nat) (outs news : List String),
    (seqExec llm ts i outs).2 = Except.ok (outs ++ news) →
    ∀ j, j < ts.length →
      (seqExec llm ts i outs).1.getD j (0, "") =
        (i + j, effectivePrompt (outs ++ news.take j) (ts.getD j default)) := by
  intro ts
  induction ts with
  | nil =>
    intro i outs news h j hj
    exact absurd hj (by simp)
  | cons t ts ih =>
    intro i outs news h j hj
    rcases hc : llm t.agent (effectivePrompt outs t) with e | o
    · simp only [seqExec, hc] at h
      exact absurd h (by simp)
    · simp only [seqExec, hc] at h ⊢
      obtain ⟨news2, hn1, -, -⟩ := seqExec_ok llm ts (i + 1) (outs ++ [o]) (outs ++ news) h
      have hnews : news = o :: news2 := by
        have h2 : outs ++ news = outs ++ (o :: news2) := by
          simpa [List.append_assoc] using hn1
        exact List.append_cancel_left h2
      subst hnews
      cases j with
      | zero => simp
      | succ j =>
        have hj' : j < ts.length := by simpa using hj
        have hrec : (seqExec llm ts (i + 1) (outs ++ [o])).2 =
            Except.ok ((outs ++ [o]) ++ news2) := by
          rw [h]
          simp [List.append_assoc]
        have := ih (i + 1) (outs ++ [o]) news2 hrec j hj'
        simp only [List.getD_cons_succ, this, List.take_succ_cons]
        refine Prod.ext ?_ ?_
        · simp; omega
        · simp [List.append_assoc]

/-- Reading a list back off by positions reproduces the list. -/
theorem range_map_getD (l : List String) :
    (List.range l.length).map (fun k => l.getD k "") = l := by
  apply List.ext_getElem
  · simp
  · intro i h1 h2
    simp only [List.getElem_map, List.getElem_range]
    rw [List.getD_eq_getElem]

/-- Reading the first `j` elements back off by positions reproduces the
prefix. -/
theorem take_range_map_getD (l : List String) (j : Nat) (hj : j ≤ l.length) :
    (List.range j).map (fun k => (l.take j).getD k "") = l.take j := by
  have h := range_map_getD (l.take j)
  rwa [List.length_take, min_eq_left hj] at h

end ShopSurfer

namespace ShopSurfer

/-- The crew always consists of exactly four tasks. -/
theorem crewTasks_length (q : String) : (crewTasks q).length = 4 := rfl

/-- The context of the crew's task at position `j` is the full prefix of
positions before `j`. -/
theorem crewTasks_context_range (q : String) (j : Nat) (hj : j < 4) :
    ((crewTasks q).getD j default).context = List.range j := by
  interval_cases j <;> rfl

/-- The stages recorded by a `search_products` call with valid keys are
exactly the ghost trace of the pipeline run. -/
theorem search_products_executed (llm : Oracle) (env : String → Option String)
    (okey skey q : String) (hv : validate_api_keys okey skey = none) :
    (search_products llm env okey skey q).executed =
      (ShoppingCrew.runFull llm q).1 := by
  rcases hr : (ShoppingCrew.runFull llm q).2 with e | outs <;>
    simp [search_products, hv, ShoppingCrew.run, hr]

/-- C1: if either API key is empty or whitespace-only, `search_products`
returns exactly "Please enter both API keys", constructs no `ShoppingCrew`
and runs no pipeline stage; if both keys contain non-whitespace
characters, validation passes and the pipeline is constructed and run. -/
theorem claim_C1 (llm : Oracle) (env : String → Option String) (okey skey q : String) :
    ((strip okey = "" ∨ strip skey = "") →
      (search_products llm env okey skey q).output = "Please enter both API keys" ∧
      (search_products llm env okey skey q).crewConstructed = false ∧
      (search_products llm env okey skey q).executed = []) ∧
    (strip okey ≠ "" → strip skey ≠ "" →
      validate_api_keys okey skey = none ∧
      (search_products llm env okey skey q).crewConstructed = true ∧
      (search_products llm env okey skey q).executed = (ShoppingCrew.runFull llm q).1) := by
  constructor
  · intro h
    have hv : validate_api_keys okey skey = some "Please enter both API keys" := by
      unfold validate_api_keys
      rw [if_pos h]
    simp [search_products, hv]
  · intro h1 h2
    have hv : validate_api_keys okey skey = none := by
      simp [validate_api_keys, h1, h2]
    refine ⟨hv, ?_, search_products_executed llm env okey skey q hv⟩
    rcases hr : (ShoppingCrew.run llm q).2 with e | res <;>
      simp [search_products, hv, hr]

/-- C1 witness: credentials ("", "abc") yield exactly the validation
message with no pipeline; credentials ("sk-test", "serper-test") pass
validation and the pipeline is constructed and run. -/
theorem claim_C1_witness :
    ((search_products llmOk envEmpty "" "abc" "monitor").output = "Please enter both API keys" ∧
      (search_products llmOk envEmpty "" "abc" "monitor").crewConstructed = false ∧
      (search_products llmOk envEmpty "" "abc" "monitor").executed = []) ∧
    (validate_api_keys "sk-test" "serper-test" = none ∧
      (search_products llmOk envEmpty "sk-test" "serper-test" "monitor").crewConstructed = true ∧
      (search_products llmOk envEmpty "sk-test" "serper-test" "monitor").executed =
        (ShoppingCrew.runFull llmOk "monitor").1) :=
  ⟨(claim_C1 llmOk envEmpty "" "abc" "monitor").1 (Or.inl (by decide)),
   (claim_C1 llmOk envEmpty "sk-test" "serper-test" "monitor").2 (by decide) (by decide)⟩

/-- C2: with valid keys, any exception raised during the run is caught and
surfaces as "An error occurred: " followed by the exception message; the
executed stages are a prefix of the four, ending at the failing stage. -/
theorem claim_C2 (llm : Oracle) (env : String → Option String) (okey skey q e : String)
    (hv : validate_api_keys okey skey = none)
    (he : (ShoppingCrew.runFull llm q).2 = Except.error e) :
    (search_products llm env okey skey q).output = "An error occurred: " ++ e ∧
    ∃ j, j < 4 ∧
      ((search_products llm env okey skey q).executed).map Prod.fst = List.range (j + 1) := by
  have hr : (ShoppingCrew.run llm q).2 = Except.error e := by
    simp [ShoppingCrew.run, he]
  constructor
  · simp [search_products, hv, hr]
  · obtain ⟨j, hj, hl⟩ := seqExec_error llm (crewTasks q) 0 [] e he
    obtain ⟨hind, -⟩ := seqExec_indices llm (crewTasks q) 0 []
    have h4 : (crewTasks q).length = 4 := rfl
    refine ⟨j, by omega, ?_⟩
    rw [search_products_executed llm env okey skey q hv]
    show ((seqExec llm (crewTasks q) 0 []).1).map Prod.fst = _
    rw [hind, hl]
    simp [List.range_eq_range']

/-- C2 witness: with valid keys and an oracle whose first stage raises
"boom", the returned string is exactly the prefixed message. -/
theorem claim_C2_witness :
    validate_api_keys "sk-test" "serper-test" = none ∧
    (ShoppingCrew.runFull llmBoom "monitor").2 = Except.error "boom" ∧
    ((search_products llmBoom envEmpty "sk-test" "serper-test" "monitor").output =
        "An error occurred: " ++ "boom" ∧
      ∃ j, j < 4 ∧
        ((search_products llmBoom envEmpty "sk-test" "serper-test" "monitor").executed).map
          Prod.fst = List.range (j + 1)) :=
  ⟨by decide, rfl,
   claim_C2 llmBoom envEmpty "sk-test" "serper-test" "monitor" "boom" (by decide) rfl⟩

end ShopSurfer

namespace ShopSurfer

/-- C3: the four tasks' contexts are the complete ordered prefixes of the
preceding tasks, and on a successful run stage `j` is invoked with an
effective prompt equal to its description followed by the outputs of all
earlier stages in order. -/
theorem claim_C3 (llm : Oracle) (q : String) (outs : List String) (j : Nat)
    (h : (ShoppingCrew.runFull llm q).2 = Except.ok outs) (hj : j < 4) :
    (crewTasks q).map Task.context = [[], [0], [0, 1], [0, 1, 2]] ∧
    outs.length = 4 ∧
    (ShoppingCrew.runFull llm q).1.getD j (0, "") =
      (j, ((crewTasks q).getD j default).description ++ String.join (outs.take j)) := by
  have h4 : outs.length = 4 := by
    obtain ⟨news, hn1, hn2, -⟩ := seqExec_ok llm (crewTasks q) 0 [] outs h
    simp only [List.nil_append] at hn1
    rw [hn1, hn2]
    exact crewTasks_length q
  refine ⟨rfl, h4, ?_⟩
  have hp := seqExec_prompt llm (crewTasks q) 0 [] outs h j
    (by rw [crewTasks_length]; exact hj)
  show (seqExec llm (crewTasks q) 0 []).1.getD j (0, "") = _
  rw [hp]
  simp only [Prod.mk.injEq, List.nil_append]
  refine ⟨Nat.zero_add j, ?_⟩
  simp only [effectivePrompt]
  congr 1
  rw [crewTasks_context_range q j hj]
  exact congrArg String.join (take_range_map_getD outs j (by omega))

/-- C3 witness: with an oracle returning "" at every stage, the run
succeeds with four outputs and stage 2's recorded prompt is its
description followed by the two earlier outputs. -/
theorem claim_C3_witness :
    (ShoppingCrew.runFull llmOk "m").2 = Except.ok ["", "", "", ""] ∧ 2 < 4 ∧
    ((crewTasks "m").map Task.context = [[], [0], [0, 1], [0, 1, 2]] ∧
      (["", "", "", ""] : List String).length = 4 ∧
      (ShoppingCrew.runFull llmOk "m").1.getD 2 (0, "") =
        (2, ((crewTasks "m").getD 2 default).description ++
          String.join ((["", "", "", ""] : List String).take 2))) :=
  ⟨rfl, by decide, claim_C3 llmOk "m" ["", "", "", ""] 2 rfl (by decide)⟩

/-- C4 counterexample: the user query is also interpolated into the second
(research) task's description — for the query "XQJZ", the query occurs
verbatim in that description, and the description varies with the query —
refuting the claim that only the first task's description embeds it. -/
theorem claim_C4_counterexample :
    containsSeg "XQJZ".data
      (((crewTasks "XQJZ").map Task.description).getD 1 "").data = true ∧
    ((crewTasks "XQJZ").map Task.description).getD 1 "" ≠
      ((crewTasks "ALTQ").map Task.description).getD 1 "" := by
  constructor
  · decide
  · decide

/-- C4 (amended): task construction is pure data construction with no
branching; the user query is interpolated into the first (verification)
and second (research) tasks' descriptions, while the third and fourth
tasks' descriptions, and all contexts, agents and expected outputs, are
fixed constants independent of the query. -/
theorem claim_C4_amended (q : String) :
    (crewTasks q).map Task.description =
      ["Verify exact product specifications for: " ++ q ++ verificationTail,
       "Research this product in detail: " ++ q ++ researchTail,
       dealFindingDescription, reportDescription] ∧
    (crewTasks q).map Task.context = [[], [0], [0, 1], [0, 1, 2]] ∧
    (crewTasks q).map Task.agent =
      [ShoppingCrew.create_agents.1, ShoppingCrew.create_agents.2.1,
       ShoppingCrew.create_agents.2.2.1, ShoppingCrew.create_agents.2.2.2] ∧
    (crewTasks q).map Task.expected_output =
      ["Detailed product verification findings", researchExpected,
       dealExpected, reportExpected] :=
  ⟨rfl, rfl, rfl, rfl⟩

/-- C5: with valid keys, the pipeline stages run in the fixed order
verification, research, deal-finding, report: the executed stage indices
are exactly `0, 1, ..., k-1` for some `k ≤ 4` (so no stage repeats or is
re-entered), and on a successful run all four stages execute. -/
theorem claim_C5 (llm : Oracle) (env : String → Option String) (okey skey q : String)
    (hv : validate_api_keys okey skey = none) :
    ∃ k, k ≤ 4 ∧
      ((search_products llm env okey skey q).executed).map Prod.fst = List.range k ∧
      (∀ outs, (ShoppingCrew.runFull llm q).2 = Except.ok outs → k = 4) := by
  obtain ⟨hind, hlen⟩ := seqExec_indices llm (crewTasks q) 0 []
  have h4 : (crewTasks q).length = 4 := rfl
  refine ⟨(seqExec llm (crewTasks q) 0 []).1.length, by omega, ?_, ?_⟩
  · rw [search_products_executed llm env okey skey q hv]
    show ((seqExec llm (crewTasks q) 0 []).1).map Prod.fst = _
    rw [hind]
    simp [List.range_eq_range']
  · intro outs hok
    obtain ⟨news, -, -, hl⟩ := seqExec_ok llm (crewTasks q) 0 [] outs hok
    omega

/-- C5 witness: with valid keys and an all-succeeding oracle, all four
stages execute in order. -/
theorem claim_C5_witness :
    validate_api_keys "sk-test" "serper-test" = none ∧
    ∃ k, k ≤ 4 ∧
      ((search_products llmOk envEmpty "sk-test" "serper-test" "monitor").executed).map
        Prod.fst = List.range k ∧
      (∀ outs, (ShoppingCrew.runFull llmOk "monitor").2 = Except.ok outs → k = 4) :=
  ⟨by decide, claim_C5 llmOk envEmpty "sk-test" "serper-test" "monitor" (by decide)⟩

/-- C6: with two non-whitespace keys, `search_products` sets the two
credential environment variables to the given keys and changes no other
environment entry. -/
theorem claim_C6 (llm : Oracle) (env : String → Option String) (okey skey q k : String)
    (h1 : strip okey ≠ "") (h2 : strip skey ≠ "") :
    (search_products llm env okey skey q).env "OPENAI_API_KEY" = some okey ∧
    (search_products llm env okey skey q).env "SERPER_API_KEY" = some skey ∧
    (k ≠ "OPENAI_API_KEY" → k ≠ "SERPER_API_KEY" →
      (search_products llm env okey skey q).env k = env k) := by
  have hv : validate_api_keys okey skey = none := by
    simp [validate_api_keys, h1, h2]
  rcases hr : (ShoppingCrew.run llm q).2 with e | res <;>
    exact ⟨by simp [search_products, hv, hr, setEnv],
           by simp [search_products, hv, hr, setEnv],
           fun hk1 hk2 => by simp [search_products, hv, hr, setEnv, hk1, hk2]⟩

/-- C6 witness: with keys ("sk-test", "serper-test"), both credential
variables are set and an unrelated variable ("PATH") is unchanged. -/
theorem claim_C6_witness :
    strip "sk-test" ≠ "" ∧ strip "serper-test" ≠ "" ∧
    ((search_products llmOk envEmpty "sk-test" "serper-test" "monitor").env
        "OPENAI_API_KEY" = some "sk-test" ∧
      (search_products llmOk envEmpty "sk-test" "serper-test" "monitor").env
        "SERPER_API_KEY" = some "serper-test" ∧
      ("PATH" ≠ "OPENAI_API_KEY" → "PATH" ≠ "SERPER_API_KEY" →
        (search_products llmOk envEmpty "sk-test" "serper-test" "monitor").env "PATH" =
          envEmpty "PATH")) :=
  ⟨by decide, by decide,
   claim_C6 llmOk envEmpty "sk-test" "serper-test" "monitor" "PATH" (by decide) (by decide)⟩

/-- C7: with valid keys, every run terminates in exactly one of two
outcomes: the string output of the last (report) task of a four-output
successful run, or the caught-exception string. -/
theorem claim_C7 (llm : Oracle) (env : String → Option String) (okey skey q : String)
    (hv : validate_api_keys okey skey = none) :
    (∃ outs, (ShoppingCrew.runFull llm q).2 = Except.ok outs ∧ outs.length = 4 ∧
      (search_products llm env okey skey q).output = outs.getLastD "") ∨
    (∃ e, (ShoppingCrew.runFull llm q).2 = Except.error e ∧
      (search_products llm env okey skey q).output = "An error occurred: " ++ e) := by
  rcases hfull : (ShoppingCrew.runFull llm q).2 with e | outs
  · right
    refine ⟨e, rfl, ?_⟩
    have hr : (ShoppingCrew.run llm q).2 = Except.error e := by
      simp [ShoppingCrew.run, hfull]
    simp [search_products, hv, hr]
  · left
    refine ⟨outs, rfl, ?_, ?_⟩
    · obtain ⟨news, hn1, hn2, -⟩ := seqExec_ok llm (crewTasks q) 0 [] outs hfull
      simp only [List.nil_append] at hn1
      rw [hn1, hn2]
      exact crewTasks_length q
    · have hr : (ShoppingCrew.run llm q).2 = Except.ok (outs.getLastD "") := by
        simp [ShoppingCrew.run, hfull]
      simp [search_products, hv, hr]

/-- C7 witness: with valid keys and an all-succeeding oracle, the run
lands in the successful-outcome disjunct. -/
theorem claim_C7_witness :
    validate_api_keys "sk-test" "serper-test" = none ∧
    ((∃ outs, (ShoppingCrew.runFull llmOk "monitor").2 = Except.ok outs ∧ outs.length = 4 ∧
        (search_products llmOk envEmpty "sk-test" "serper-test" "monitor").output =
          outs.getLastD "") ∨
      (∃ e, (ShoppingCrew.runFull llmOk "monitor").2 = Except.error e ∧
        (search_products llmOk envEmpty "sk-test" "serper-test" "monitor").output =
          "An error occurred: " ++ e)) :=
  ⟨by decide, claim_C7 llmOk envEmpty "sk-test" "serper-test" "monitor" (by decide)⟩

end ShopSurfer

namespace ShopSurfer

/-- C8: when validation fails, `search_products` returns before the
environment assignments, so the modelled process environment is completely
unchanged. -/
theorem claim_C8 (llm : Oracle) (env : String → Option String) (okey skey q : String)
    (h : strip okey = "" ∨ strip skey = "") :
    (search_products llm env okey skey q).env = env := by
  have hv : validate_api_keys okey skey = some "Please enter both API keys" := by
    unfold validate_api_keys
    rw [if_pos h]
  simp [search_products, hv]

/-- C8 witness: with an empty first key, the environment map is returned
untouched. -/
theorem claim_C8_witness :
    (strip "" = "" ∨ strip "abc" = "") ∧
    (search_products llmOk envEmpty "" "abc" "monitor").env = envEmpty :=
  ⟨Or.inl (by decide), claim_C8 llmOk envEmpty "" "abc" "monitor" (Or.inl (by decide))⟩

/-- C9: the credential environment writes are not rolled back on failure:
with two non-whitespace keys, even when the run raises an exception (and
the prefixed error string is returned), both credential variables remain
set to the new values. -/
theorem claim_C9 (llm : Oracle) (env : String → Option String) (okey skey q e : String)
    (h1 : strip okey ≠ "") (h2 : strip skey ≠ "")
    (he : (ShoppingCrew.runFull llm q).2 = Except.error e) :
    (search_products llm env okey skey q).output = "An error occurred: " ++ e ∧
    (search_products llm env okey skey q).env "OPENAI_API_KEY" = some okey ∧
    (search_products llm env okey skey q).env "SERPER_API_KEY" = some skey := by
  have hv : validate_api_keys okey skey = none := by
    simp [validate_api_keys, h1, h2]
  have hr : (ShoppingCrew.run llm q).2 = Except.error e := by
    simp [ShoppingCrew.run, he]
  exact ⟨by simp [search_products, hv, hr],
         by simp [search_products, hv, hr, setEnv],
         by simp [search_products, hv, hr, setEnv]⟩

/-- C9 witness: with valid keys and an oracle raising "boom", the error
string is returned and both credential variables hold the new values. -/
theorem claim_C9_witness :
    strip "sk-test" ≠ "" ∧ strip "serper-test" ≠ "" ∧
    (ShoppingCrew.runFull llmBoom "monitor").2 = Except.error "boom" ∧
    ((search_products llmBoom envEmpty "sk-test" "serper-test" "monitor").output =
        "An error occurred: " ++ "boom" ∧
      (search_products llmBoom envEmpty "sk-test" "serper-test" "monitor").env
        "OPENAI_API_KEY" = some "sk-test" ∧
      (search_products llmBoom envEmpty "sk-test" "serper-test" "monitor").env
        "SERPER_API_KEY" = some "serper-test") :=
  ⟨by decide, by decide, rfl,
   claim_C9 llmBoom envEmpty "sk-test" "serper-test" "monitor" "boom"
     (by decide) (by decide) rfl⟩

/-- C10: the agents' tool sets are fixed and unequal: the verification
agent gets exactly the search and website-search tools (not the scrape
tool), the research and deal-finding agents get all three, and the report
agent is constructed with no tools at all. -/
theorem claim_C10 :
    ShoppingCrew.create_agents.1.tools = [search_tool, website_search_tool] ∧
    ShoppingCrew.create_agents.2.1.tools = [search_tool, website_search_tool, scrape_tool] ∧
    ShoppingCrew.create_agents.2.2.1.tools = [search_tool, website_search_tool, scrape_tool] ∧
    ShoppingCrew.create_agents.2.2.2.tools = [] ∧
    scrape_tool ∉ ShoppingCrew.create_agents.1.tools :=
  ⟨rfl, rfl, rfl, rfl, by decide⟩

end ShopSurfer
